import Mathlib

/-!
# Verification of the active-learning controller in `debug_main.py`

Shallow embedding of the core of the repository
`Learning-Loss-and-Metric-for-Active-Learning` (file `debug_main.py`):
the loss-prediction ranking loss `LossPredLoss`, the selection policy and
labeled/unlabeled bookkeeping of the `__main__` trial/cycle loop, and the
diagnostic-emission block of `train_epoch`.

Tensors of per-example losses / scores are modelled as `List ℚ`; dataset
indices as `Nat`.  Python slicing with negative bounds (`l[-a:]`, `l[:-a]`)
is modelled exactly, including the `a = 0` corner.  Python exceptions are
modelled with `Except`.
-/

namespace DebugMain

/-- Python exceptions that the embedded code can raise.
`assertionError` models a failing `assert` statement;
`unboundLocalError` models `return loss` when `loss` was never assigned.
`notImplementedError` is listed because `LossPredLoss` mentions
`NotImplementedError()` — the embedding lets us state that this exception is
never the outcome. -/
inductive PyError where
  | assertionError
  | unboundLocalError
  | notImplementedError
  deriving DecidableEq, Repr

/-- The value returned by `LossPredLoss`: a scalar tensor under the `'mean'`
reduction, a vector of per-pair losses under the `'none'` reduction. -/
inductive LPLValue where
  | scalar (x : ℚ)
  | vector (v : List ℚ)
  deriving DecidableEq, Repr

/-- `torch.sign` on a scalar: `1` for positive, `-1` for negative, `0` at `0`. -/
def torchSign (x : ℚ) : ℚ :=
  if 0 < x then 1 else if x < 0 then -1 else 0

/-- `(l - l.flip(0))[:len(l)//2]` from `LossPredLoss` (debug_main.py:63-64):
the pairwise differences `l[i] - l[2B-1-i]` for the first half of the batch. -/
def halfDiffs (l : List ℚ) : List ℚ :=
  (l.zipWith (fun a b => a - b) l.reverse).take (l.length / 2)

/-- `one = 2 * torch.sign(torch.clamp(target, min=0)) - 1` (debug_main.py:67),
applied to one entry of the halved target-difference tensor.
`torch.clamp(t, min=0)` is `max t 0`. -/
def oneOp (t : ℚ) : ℚ :=
  2 * torchSign (max t 0) - 1

/-- The sign rule as the specification words it: `+1` if the target
difference is `≥ 0` (ties broken toward `+1`), else `-1`.  Stated only to be
compared with `oneOp`, which is the rule the source actually computes. -/
def oneOpSpec (t : ℚ) : ℚ :=
  if 0 ≤ t then 1 else -1

/-- `def LossPredLoss(input, target, margin=1.0, reduction='mean')`
(debug_main.py:59-77).

* `assert len(input) % 2 == 0` → `assertionError` on an odd batch.
* `input = (input - input.flip(0))[:len(input)//2]`, same for `target`
  (the `target.detach()` is a gradient-graph operation, identity on values).
* `one = 2 * torch.sign(torch.clamp(target, min=0)) - 1`.
* `'mean'`: `sum(clamp(margin - one * input, min=0)) / input.size(0)`
  (the size is already the halved size).
* `'none'`: the unreduced vector `clamp(margin - one * input, min=0)`.
* any other reduction: the source evaluates the bare expression
  `NotImplementedError()` without `raise`, so `return loss` hits an
  unassigned local → `unboundLocalError`.

(The second source assert, `input.shape == input.flip(0).shape`, is always
true and is not modelled.  The `'mean'` division by `input.size(0)` is `ℚ`
division, which like the source is only exercised on nonempty batches.) -/
def LossPredLoss (input target : List ℚ) (margin : ℚ := 1) (reduction : String := "mean") :
    Except PyError LPLValue :=
  if input.length % 2 ≠ 0 then .error .assertionError
  else
    let input' := halfDiffs input
    let target' := halfDiffs target
    let one := target'.map oneOp
    let perPair := List.zipWith (fun o i => max (margin - o * i) 0) one input'
    if reduction = "mean" then
      .ok (.scalar (perPair.sum / (input'.length : ℚ)))
    else if reduction = "none" then
      .ok (.vector perPair)
    else
      .error .unboundLocalError

/-! ### Python negative slicing -/

/-- Python `l[-a:]` for `a ≥ 0`: the last `a` elements; for `a = 0` the slice
is `l[0:] = l` (since `-0 = 0`), and for `a > len(l)` the whole list. -/
def pySliceNeg (l : List α) (a : Nat) : List α :=
  if a = 0 then l else l.drop (l.length - a)

/-- Python `l[:-a]` for `a ≥ 0`: all but the last `a` elements; for `a = 0`
the slice is `l[:0] = []`, and for `a > len(l)` the empty list. -/
def pyTakeNeg (l : List α) (a : Nat) : List α :=
  if a = 0 then [] else l.take (l.length - a)

/-! ### The trial/cycle state machine of `__main__` (debug_main.py:262-337)

Configuration constants (`NUM_TRAIN`, `INITIALQUERY`, `ADDENDUM`, `SUBSET`,
…) come from `debug_config.py`, which is not part of the sources; they are
taken as parameters. -/

/-- The labeled/unlabeled index bookkeeping owned by `__main__`: the Python
lists `labeled_set` and `unlabeled_set`. -/
structure ALState where
  labeled : List Nat
  unlabeled : List Nat
  deriving DecidableEq, Repr

/-- `np.argsort(uncertainty)` (debug_main.py:318): the positions
`0, …, len(uncertainty)-1` sorted ascending by score.  (`np.argsort` leaves
the order of equal scores unspecified; the embedding uses a stable merge
sort, which agrees with it on distinct scores, and every theorem below uses
it only through concrete distinct-score inputs or its permutation
property.) -/
def argsort (u : List ℚ) : List Nat :=
  (List.range u.length).mergeSort (fun i j => u.getD i 0 ≤ u.getD j 0)

/-- `list(torch.tensor(subset)[arg])` with `arg = np.argsort(uncertainty)`:
the subpool indices reordered ascending by predicted score
(debug_main.py:318,328,332). -/
def sortedSubset (subset : List Nat) (uncertainty : List ℚ) : List Nat :=
  (argsort uncertainty).map (fun i => subset.getD i 0)

/-- `list(torch.tensor(subset)[arg][-ADDENDUM:])` (debug_main.py:328): the
`ADDENDUM` highest-scoring subpool indices, i.e. the tail of the ascending
sort — the indices the acquisition appends to `labeled_set`. -/
def selectTop (subset : List Nat) (uncertainty : List ℚ) (addendum : Nat) : List Nat :=
  pySliceNeg (sortedSubset subset uncertainty) addendum

/-- Error raised by the pool sampler when the unlabeled pool is smaller than
the configured subpool size (`PoolExhaustedError` in the specification's
taxonomy). -/
inductive SamplerError where
  | poolExhaustedError
  deriving DecidableEq, Repr

/-- Modelled from the spec: `strategy.sampler.Sampler` (module
`strategy/sampler.py` is not among the sources; only its call sites
debug_main.py:307,312 are).  Per the spec it draws `subset_size` indices
uniformly at random without replacement from the unlabeled indices and
fails with a pool-exhaustion error when `|UnlabeledSet| < subset_size`; the
call site (debug_main.py:332) keeps `unlabeled_set[SUBSET:]` as the
unscored remainder, so the draw is modelled as an in-place shuffle of
`unlabeled_set` followed by taking the prefix of length `subset_size`.  The
shuffle's outcome is passed in as the already-shuffled list `shuffled`
(randomness is external).  The returned list is the drawn subpool `subset`;
the predicted scores for it are likewise external inputs. -/
def Sampler (shuffled : List Nat) (subsetSize : Nat) : Except SamplerError (List Nat) :=
  if shuffled.length < subsetSize then .error .poolExhaustedError
  else .ok (shuffled.take subsetSize)

/-- One active-learning cycle's effect on the labeled/unlabeled state
(debug_main.py:304-337, acquisition at 327-332): draw the subpool from the
shuffled unlabeled list, reorder it ascending by predicted score, append
the top `ADDENDUM` indices to `labeled_set`
(`labeled_set += list(torch.tensor(subset)[arg][-ADDENDUM:])`), and rebuild
`unlabeled_set` as the unselected subpool part plus the unscored remainder
(`unlabeled_set = list(torch.tensor(subset)[arg][:-ADDENDUM]) +
unlabeled_set[SUBSET:]`). -/
def cycleStep (SUBSET ADDENDUM : Nat) (s : ALState)
    (shuffled : List Nat) (uncertainty : List ℚ) : Except SamplerError ALState :=
  match Sampler shuffled SUBSET with
  | .error e => .error e
  | .ok subset =>
      .ok { labeled := s.labeled ++ selectTop subset uncertainty ADDENDUM
            unlabeled := pyTakeNeg (sortedSubset subset uncertainty) ADDENDUM
                          ++ shuffled.drop SUBSET }

/-- The initial split of a trial (debug_main.py:271-274): shuffle
`list(range(NUM_TRAIN))` and split at `INITIALQUERY`.  `perm` is the
shuffled index list. -/
def initSplit (INITIALQUERY : Nat) (perm : List Nat) : ALState :=
  { labeled := perm.take INITIALQUERY, unlabeled := perm.drop INITIALQUERY }

/-- The cycle loop `for cycle in range(CYCLES)` (debug_main.py:283-337),
restricted to its effect on the labeled/unlabeled state.  `shuffles c`
gives the sampler's in-place shuffle outcome for cycle `c` (a permutation
of its argument), `uncs c` the predicted scores over that cycle's subpool.
A sampler failure stops the loop and propagates (there is no `try` around
the call). -/
def runCycles (SUBSET ADDENDUM : Nat) (shuffles : Nat → List Nat → List Nat)
    (uncs : Nat → List ℚ) : Nat → ALState → Except SamplerError ALState
  | 0, s => .ok s
  | c + 1, s =>
      match cycleStep SUBSET ADDENDUM s (shuffles 0 s.unlabeled) (uncs 0) with
      | .error e => .error e
      | .ok s' =>
          runCycles SUBSET ADDENDUM (fun i => shuffles (i + 1)) (fun i => uncs (i + 1)) c s'

/-! ### The mid-pick ("middle_pick") cycle shape (debug_main.py:304-337) -/

/-- One cycle in mid-pick mode (`args.middle_pick`, debug_main.py:304-308,
327-337), recording which labeled set each of the two training phases
trains on.  The source runs `train(…, 0, MILESTONES[0], …)`, then
`Sampler(…)`, then `train(…, MILESTONES[0], EPOCH, …)`; both `train` calls
read `dataloaders['train']`, which was built from `labeled_set` before the
cycle and is rebuilt only at debug_main.py:335, after the second phase —
the acquisition update of `labeled_set`/`unlabeled_set` (lines 327-332)
also happens only after the second phase.  The result pairs the list of
phases, each `(start_epoch, end_epoch, labeled set trained on)`, with the
final state. -/
def runCycleMidPick (SUBSET ADDENDUM milestone0 EPOCH : Nat) (s : ALState)
    (shuffled : List Nat) (uncertainty : List ℚ) :
    Except SamplerError (List (Nat × Nat × List Nat) × ALState) :=
  match cycleStep SUBSET ADDENDUM s shuffled uncertainty with
  | .error e => .error e
  | .ok s' => .ok ([(0, milestone0, s.labeled), (milestone0, EPOCH, s.labeled)], s')

/-! ### The diagnostic-emission block of `train_epoch` (debug_main.py:169-198) -/

/-- Failure of the observability (plotting) sink
(`ObservabilitySinkError` in the specification's taxonomy). -/
inductive SinkError where
  | observabilitySinkError
  deriving DecidableEq, Repr

/-- The per-iteration diagnostic emission of `train_epoch`
(debug_main.py:169-198).  Guard: `(iters % 10 == 0) and (vis != None) and
(plot_data != None)`.  Inside the guard the two `.item()` conversions of
the auxiliary and metric loss components are each wrapped in
`try: … except: pass` (a failure leaves the unconverted value in place),
after which `vis.line(…)` — the sink call, modelled by `sinkLine` applied
to the two emitted components — runs with **no** surrounding `try`.
`mItem`/`tItem` are the outcomes of the two `.item()` attempts,
`mVal`/`tVal` the values kept when the attempt fails. -/
def train_epoch_emit (iters : Nat) (visPresent plotPresent : Bool)
    (mItem tItem : Except Unit ℚ) (mVal tVal : ℚ)
    (sinkLine : ℚ → ℚ → Except SinkError Unit) : Except SinkError Unit :=
  if iters % 10 = 0 ∧ visPresent = true ∧ plotPresent = true then
    let m := match mItem with | .ok v => v | .error _ => mVal
    let t := match tItem with | .ok v => v | .error _ => tVal
    sinkLine m t
  else .ok ()

/-- The emission as the specification words it ("any failure from the
diagnostic sink is caught, logged, and ignored; never propagates"): same
control flow, but the sink call's outcome is discarded.  Stated only to be
compared with `train_epoch_emit`, which is what the source does. -/
def train_epoch_emitSpec (iters : Nat) (visPresent plotPresent : Bool)
    (mItem tItem : Except Unit ℚ) (mVal tVal : ℚ)
    (sinkLine : ℚ → ℚ → Except SinkError Unit) : Except SinkError Unit :=
  if iters % 10 = 0 ∧ visPresent = true ∧ plotPresent = true then
    let m := match mItem with | .ok v => v | .error _ => mVal
    let t := match tItem with | .ok v => v | .error _ => tVal
    match sinkLine m t with
    | _ => .ok ()
  else .ok ()

/-! ### Helper lemmas about the selection policy and the state machine -/

open List

theorem pyTakeNeg_append_pySliceNeg (l : List α) (a : Nat) :
    pyTakeNeg l a ++ pySliceNeg l a = l := by
  unfold pyTakeNeg pySliceNeg
  by_cases h : a = 0 <;> simp [h]

theorem argsort_perm (u : List ℚ) : argsort u ~ List.range u.length :=
  List.mergeSort_perm _ _

theorem length_argsort (u : List ℚ) : (argsort u).length = u.length := by
  simpa using (argsort_perm u).length_eq

theorem map_getD_range (l : List Nat) :
    (List.range l.length).map (fun i => l.getD i 0) = l := by
  apply List.ext_getElem
  · simp
  · intro i h1 h2
    simp [List.getD_eq_getElem?_getD, List.getElem?_eq_getElem h2]

theorem sortedSubset_perm (subset : List Nat) (u : List ℚ)
    (h : u.length = subset.length) : sortedSubset subset u ~ subset := by
  have hp : (argsort u).map (fun i => subset.getD i 0)
      ~ (List.range u.length).map (fun i => subset.getD i 0) :=
    (argsort_perm u).map _
  rw [sortedSubset]
  rw [h] at hp
  rwa [map_getD_range subset] at hp

theorem length_sortedSubset (subset : List Nat) (u : List ℚ) :
    (sortedSubset subset u).length = u.length := by
  simp [sortedSubset, length_argsort]

theorem length_pySliceNeg (l : List α) (a : Nat) (h0 : 0 < a) (hle : a ≤ l.length) :
    (pySliceNeg l a).length = a := by
  rw [pySliceNeg, if_neg (Nat.pos_iff_ne_zero.mp h0)]
  simp
  omega

/-- Unfolding of a successful `cycleStep`: the sampler succeeded
(`SUBSET ≤ |shuffled|`) and the new state is the acquisition update. -/
theorem cycleStep_ok (SUBSET ADDENDUM : Nat) (s s' : ALState)
    (shuffled : List Nat) (u : List ℚ)
    (h : cycleStep SUBSET ADDENDUM s shuffled u = .ok s') :
    SUBSET ≤ shuffled.length ∧
    s' = { labeled := s.labeled ++ selectTop (shuffled.take SUBSET) u ADDENDUM
           unlabeled := pyTakeNeg (sortedSubset (shuffled.take SUBSET) u) ADDENDUM
                         ++ shuffled.drop SUBSET } := by
  rw [cycleStep, Sampler] at h
  by_cases hlt : shuffled.length < SUBSET
  · rw [if_pos hlt] at h
    exact absurd h (by simp)
  · rw [if_neg hlt] at h
    simp only [Except.ok.injEq] at h
    exact ⟨Nat.le_of_not_lt hlt, h.symm⟩

/-- A successful cycle permutes the combined labeled/unlabeled contents:
the acquisition moves indices between the two lists but neither invents
nor drops any. -/
theorem cycleStep_perm (SUBSET ADDENDUM : Nat) (s s' : ALState)
    (shuffled : List Nat) (u : List ℚ)
    (hshuf : shuffled ~ s.unlabeled) (hu : u.length = SUBSET)
    (h : cycleStep SUBSET ADDENDUM s shuffled u = .ok s') :
    s'.labeled ++ s'.unlabeled ~ s.labeled ++ s.unlabeled := by
  obtain ⟨hle, rfl⟩ := cycleStep_ok SUBSET ADDENDUM s s' shuffled u h
  have hsub : u.length = (shuffled.take SUBSET).length := by
    rw [hu, List.length_take]
    omega
  have hsort : sortedSubset (shuffled.take SUBSET) u ~ shuffled.take SUBSET :=
    sortedSubset_perm _ _ hsub
  calc (s.labeled ++ selectTop (shuffled.take SUBSET) u ADDENDUM)
        ++ (pyTakeNeg (sortedSubset (shuffled.take SUBSET) u) ADDENDUM
            ++ shuffled.drop SUBSET)
      ~ s.labeled ++ ((pyTakeNeg (sortedSubset (shuffled.take SUBSET) u) ADDENDUM
            ++ selectTop (shuffled.take SUBSET) u ADDENDUM) ++ shuffled.drop SUBSET) := by
        simp only [List.append_assoc]
        refine List.Perm.append_left _ ?_
        calc selectTop (shuffled.take SUBSET) u ADDENDUM
              ++ (pyTakeNeg (sortedSubset (shuffled.take SUBSET) u) ADDENDUM
                  ++ shuffled.drop SUBSET)
            ~ (selectTop (shuffled.take SUBSET) u ADDENDUM
              ++ pyTakeNeg (sortedSubset (shuffled.take SUBSET) u) ADDENDUM)
                  ++ shuffled.drop SUBSET := by
              simp [List.append_assoc]
          _ ~ (pyTakeNeg (sortedSubset (shuffled.take SUBSET) u) ADDENDUM
              ++ selectTop (shuffled.take SUBSET) u ADDENDUM) ++ shuffled.drop SUBSET :=
              List.Perm.append_right _ List.perm_append_comm
          _ ~ (pyTakeNeg (sortedSubset (shuffled.take SUBSET) u) ADDENDUM
              ++ selectTop (shuffled.take SUBSET) u ADDENDUM) ++ shuffled.drop SUBSET :=
              List.Perm.refl _
        simp [List.append_assoc]
    _ = s.labeled ++ (sortedSubset (shuffled.take SUBSET) u ++ shuffled.drop SUBSET) := by
        rw [selectTop, pyTakeNeg_append_pySliceNeg]
    _ ~ s.labeled ++ (shuffled.take SUBSET ++ shuffled.drop SUBSET) :=
        List.Perm.append_left _ (List.Perm.append_right _ hsort)
    _ = s.labeled ++ shuffled := by rw [List.take_append_drop]
    _ ~ s.labeled ++ s.unlabeled := List.Perm.append_left _ hshuf

/-- A successful cycle grows `labeled_set` by exactly `ADDENDUM` entries
(for `0 < ADDENDUM ≤ SUBSET` and scores aligned with the subpool). -/
theorem cycleStep_labeled_length (SUBSET ADDENDUM : Nat) (s s' : ALState)
    (shuffled : List Nat) (u : List ℚ)
    (hA : 0 < ADDENDUM) (hAS : ADDENDUM ≤ SUBSET) (hu : u.length = SUBSET)
    (h : cycleStep SUBSET ADDENDUM s shuffled u = .ok s') :
    s'.labeled.length = s.labeled.length + ADDENDUM := by
  obtain ⟨hle, rfl⟩ := cycleStep_ok SUBSET ADDENDUM s s' shuffled u h
  have hlen : (sortedSubset (shuffled.take SUBSET) u).length = SUBSET := by
    rw [length_sortedSubset, hu]
  simp only [List.length_append, selectTop]
  rw [length_pySliceNeg _ _ hA (by rw [hlen]; exact hAS)]

/-- Across a run of the cycle loop that never exhausted the pool, the
combined labeled/unlabeled contents stay a permutation of the starting
contents. -/
theorem runCycles_perm (SUBSET ADDENDUM : Nat) :
    ∀ (c : Nat) (shuffles : Nat → List Nat → List Nat) (uncs : Nat → List ℚ),
      (∀ i l, shuffles i l ~ l) → (∀ i, (uncs i).length = SUBSET) →
      ∀ (s0 s : ALState), runCycles SUBSET ADDENDUM shuffles uncs c s0 = .ok s →
        s.labeled ++ s.unlabeled ~ s0.labeled ++ s0.unlabeled
  | 0, shuffles, uncs, hshuf, hunc, s0, s, h => by
      simp only [runCycles, Except.ok.injEq] at h
      subst h
      exact List.Perm.refl _
  | c + 1, shuffles, uncs, hshuf, hunc, s0, s, h => by
      rw [runCycles] at h
      cases hstep : cycleStep SUBSET ADDENDUM s0 (shuffles 0 s0.unlabeled) (uncs 0) with
      | error e => rw [hstep] at h; exact absurd h (by simp)
      | ok s1 =>
          rw [hstep] at h
          have ih := runCycles_perm SUBSET ADDENDUM c
            (fun i => shuffles (i + 1)) (fun i => uncs (i + 1))
            (fun i l => hshuf (i + 1) l) (fun i => hunc (i + 1)) s1 s h
          exact ih.trans
            (cycleStep_perm SUBSET ADDENDUM s0 s1 _ _ (hshuf 0 s0.unlabeled) (hunc 0) hstep)

/-- Across a run of `c` cycles that never exhausted the pool, `labeled_set`
grows by exactly `c * ADDENDUM` entries. -/
theorem runCycles_labeled_length (SUBSET ADDENDUM : Nat)
    (hA : 0 < ADDENDUM) (hAS : ADDENDUM ≤ SUBSET) :
    ∀ (c : Nat) (shuffles : Nat → List Nat → List Nat) (uncs : Nat → List ℚ),
      (∀ i, (uncs i).length = SUBSET) →
      ∀ (s0 s : ALState), runCycles SUBSET ADDENDUM shuffles uncs c s0 = .ok s →
        s.labeled.length = s0.labeled.length + c * ADDENDUM
  | 0, shuffles, uncs, hunc, s0, s, h => by
      simp only [runCycles, Except.ok.injEq] at h
      subst h
      simp
  | c + 1, shuffles, uncs, hunc, s0, s, h => by
      rw [runCycles] at h
      cases hstep : cycleStep SUBSET ADDENDUM s0 (shuffles 0 s0.unlabeled) (uncs 0) with
      | error e => rw [hstep] at h; exact absurd h (by simp)
      | ok s1 =>
          rw [hstep] at h
          have ih := runCycles_labeled_length SUBSET ADDENDUM hA hAS c
            (fun i => shuffles (i + 1)) (fun i => uncs (i + 1))
            (fun i => hunc (i + 1)) s1 s h
          have hstep' := cycleStep_labeled_length SUBSET ADDENDUM s0 s1 _ _
            hA hAS (hunc 0) hstep
          rw [ih, hstep']
          ring

theorem initSplit_append (INITIALQUERY : Nat) (perm : List Nat) :
    (initSplit INITIALQUERY perm).labeled ++ (initSplit INITIALQUERY perm).unlabeled = perm :=
  List.take_append_drop _ _

/-! ### Claim theorems -/

/-- C1: at every observable point between cycles — after the initial split
(`c = 0`) and after each cycle's acquisition update — the labeled index
list and the unlabeled index list are disjoint and their union is the full
index set `{0, …, NUM_TRAIN-1}`.  `perm` is the trial's initial shuffle of
`list(range(NUM_TRAIN))`, `shuffles`/`uncs` are the sampler shuffles and
subpool scores of the successive cycles. -/
theorem labeled_unlabeled_partition
    (NUM_TRAIN INITIALQUERY SUBSET ADDENDUM : Nat) (perm : List Nat)
    (hperm : perm ~ List.range NUM_TRAIN)
    (shuffles : Nat → List Nat → List Nat) (hshuf : ∀ i l, shuffles i l ~ l)
    (uncs : Nat → List ℚ) (hunc : ∀ i, (uncs i).length = SUBSET)
    (c : Nat) (s : ALState)
    (h : runCycles SUBSET ADDENDUM shuffles uncs c (initSplit INITIALQUERY perm) = .ok s) :
    s.labeled.Disjoint s.unlabeled ∧
    ∀ i, (i ∈ s.labeled ∨ i ∈ s.unlabeled) ↔ i < NUM_TRAIN := by
  have hp : s.labeled ++ s.unlabeled ~ List.range NUM_TRAIN := by
    refine (runCycles_perm SUBSET ADDENDUM c shuffles uncs hshuf hunc _ s h).trans ?_
    rw [initSplit_append]
    exact hperm
  have hnd : (s.labeled ++ s.unlabeled).Nodup :=
    hp.nodup_iff.mpr (List.nodup_range NUM_TRAIN)
  refine ⟨(List.nodup_append.mp hnd).2.2, fun i => ?_⟩
  rw [← List.mem_append, hp.mem_iff, List.mem_range]

/-- C1 witness: a concrete 6-index run (`INITIALQUERY = 2`, `SUBSET = 2`,
`ADDENDUM = 1`) after 2 cycles. -/
theorem labeled_unlabeled_partition_witness :
    ([0, 1, 3, 4] : List Nat).Disjoint [2, 5] ∧
    ∀ i, (i ∈ ([0, 1, 3, 4] : List Nat) ∨ i ∈ ([2, 5] : List Nat)) ↔ i < 6 := by
  have h : runCycles 2 1 (fun _ l => l) (fun _ => [0, 1]) 2 (initSplit 2 [0, 1, 2, 3, 4, 5])
      = .ok ⟨[0, 1, 3, 4], [2, 5]⟩ := by
    norm_num [runCycles, cycleStep, Sampler, initSplit, selectTop, sortedSubset, argsort,
      pySliceNeg, pyTakeNeg, List.mergeSort, List.range, List.range.loop, List.splitInTwo,
      List.splitAt, List.splitAt.go, List.merge]
  exact labeled_unlabeled_partition 6 2 2 1 [0, 1, 2, 3, 4, 5] (by decide)
    (fun _ l => l) (fun _ l => List.Perm.refl l) (fun _ => [0, 1]) (fun _ => rfl)
    2 ⟨[0, 1, 3, 4], [2, 5]⟩ h

/-- C2: while the unlabeled pool is not exhausted (the run of the cycle
loop returned without a sampler failure), the size of the labeled set
after cycle `c` equals `INITIALQUERY + c * ADDENDUM`: the initial split
takes exactly `INITIALQUERY` indices and each cycle's acquisition appends
exactly `ADDENDUM` indices. -/
theorem labeled_size_after_cycles
    (NUM_TRAIN INITIALQUERY SUBSET ADDENDUM : Nat) (perm : List Nat)
    (hperm : perm ~ List.range NUM_TRAIN) (hIQ : INITIALQUERY ≤ NUM_TRAIN)
    (hA : 0 < ADDENDUM) (hAS : ADDENDUM ≤ SUBSET)
    (shuffles : Nat → List Nat → List Nat)
    (uncs : Nat → List ℚ) (hunc : ∀ i, (uncs i).length = SUBSET)
    (c : Nat) (s : ALState)
    (h : runCycles SUBSET ADDENDUM shuffles uncs c (initSplit INITIALQUERY perm) = .ok s) :
    s.labeled.length = INITIALQUERY + c * ADDENDUM := by
  have hlen : perm.length = NUM_TRAIN := by
    simpa using hperm.length_eq
  have hinit : (initSplit INITIALQUERY perm).labeled.length = INITIALQUERY := by
    simp [initSplit, hlen]
    omega
  rw [runCycles_labeled_length SUBSET ADDENDUM hA hAS c shuffles uncs hunc _ s h, hinit]

/-- C2 witness: the same concrete run as the C1 witness;
`|labeled| = 4 = 2 + 2 * 1` after 2 cycles. -/
theorem labeled_size_after_cycles_witness :
    ([0, 1, 3, 4] : List Nat).length = 2 + 2 * 1 := by
  have h : runCycles 2 1 (fun _ l => l) (fun _ => [0, 1]) 2 (initSplit 2 [0, 1, 2, 3, 4, 5])
      = .ok ⟨[0, 1, 3, 4], [2, 5]⟩ := by
    norm_num [runCycles, cycleStep, Sampler, initSplit, selectTop, sortedSubset, argsort,
      pySliceNeg, pyTakeNeg, List.mergeSort, List.range, List.range.loop, List.splitInTwo,
      List.splitAt, List.splitAt.go, List.merge]
  exact labeled_size_after_cycles 6 2 2 1 [0, 1, 2, 3, 4, 5] (by decide) (by decide)
    (by decide) (by decide) (fun _ l => l) (fun _ => [0, 1]) (fun _ => rfl)
    2 ⟨[0, 1, 3, 4], [2, 5]⟩ h

/-- C3: for a batch of 4 with `target_loss = [3,1,5,2]` and
`pred_loss = [2,2,2,2]`, the pairing is `(0,3),(1,2)`, the target
differences are `[1,-4]`, the signs are `[+1,-1]`, the prediction
differences are `[0,0]`, each per-pair loss is
`max(0, margin - sign*0) = margin`, and the `'mean'` reduction returns
exactly `margin` (for any nonnegative margin; the source default is 1). -/
theorem ranking_loss_concrete_batch (margin : ℚ) (hm : 0 ≤ margin) :
    halfDiffs [3, 1, 5, 2] = [1, -4] ∧
    (halfDiffs [3, 1, 5, 2]).map oneOp = [1, -1] ∧
    halfDiffs [2, 2, 2, 2] = [0, 0] ∧
    LossPredLoss [2, 2, 2, 2] [3, 1, 5, 2] margin "none" = .ok (.vector [margin, margin]) ∧
    LossPredLoss [2, 2, 2, 2] [3, 1, 5, 2] margin "mean" = .ok (.scalar margin) := by
  have hmax : max margin 0 = margin := max_eq_left hm
  have hne : ("none" : String) ≠ "mean" := by decide
  refine ⟨by norm_num [halfDiffs], by norm_num [halfDiffs, oneOp, torchSign],
    by norm_num [halfDiffs], ?_, ?_⟩
  · norm_num [LossPredLoss, halfDiffs, oneOp, torchSign, hmax, hne]
  · norm_num [LossPredLoss, halfDiffs, oneOp, torchSign, hmax]

/-- C3 witness: the source's default margin `1`. -/
theorem ranking_loss_concrete_batch_witness :
    (0 : ℚ) ≤ 1 ∧
    LossPredLoss [2, 2, 2, 2] [3, 1, 5, 2] 1 "mean" = .ok (.scalar 1) :=
  ⟨by norm_num, (ranking_loss_concrete_batch 1 (by norm_num)).2.2.2.2⟩

/-- C4 counterexample: the claim says a pair with `target_diff = 0` gets
sign `+1`; the source's `one = 2*sign(clamp(target,min=0))-1` gives `-1` at
`0` (`clamp` yields `0`, `torch.sign 0 = 0`).  Observable consequence: for
`input = [1,0]`, `target = [1,1]` (one pair, `target_diff = 0`,
`pred_diff = 1`, `margin = 1`) the source returns per-pair loss
`max(0, 1 - (-1)*1) = 2`, where the claimed sign `+1` would give
`max(0, 1 - 1*1) = 0`. -/
theorem sign_at_tie_counterexample :
    oneOp 0 = -1 ∧ oneOpSpec 0 = 1 ∧ oneOp 0 ≠ oneOpSpec 0 ∧
    LossPredLoss [1, 0] [1, 1] 1 "none" = .ok (.vector [2]) ∧
    max (1 - oneOpSpec 0 * 1) 0 = 0 := by
  have hne : ("none" : String) ≠ "mean" := by decide
  refine ⟨by norm_num [oneOp, torchSign], by norm_num [oneOpSpec],
    by norm_num [oneOp, oneOpSpec, torchSign], ?_, by norm_num [oneOpSpec]⟩
  norm_num [LossPredLoss, halfDiffs, oneOp, torchSign, hne]

/-- C4 amended: in the ranking loss the sign used in the per-pair hinge
term is `+1` exactly when `target_diff` is strictly positive and `-1`
otherwise — a pair with `target_diff = 0` gets sign `-1` (ties broken
toward `-1`). -/
theorem sign_rule_amended (t : ℚ) :
    oneOp t = if 0 < t then 1 else -1 := by
  by_cases h : 0 < t
  · rw [if_pos h]
    rw [oneOp, torchSign, max_eq_left h.le]
    rw [if_pos h]
    norm_num
  · rw [if_neg h]
    rw [oneOp, torchSign, max_eq_right (le_of_not_lt h)]
    norm_num

/-- `np.argsort` helper: the argsort order is ascending in the scores. -/
theorem argsort_sorted (u : List ℚ) :
    (argsort u).Pairwise (fun i j => u.getD i 0 ≤ u.getD j 0) := by
  have h : ((List.range u.length).mergeSort
      (fun i j => decide (u.getD i 0 ≤ u.getD j 0))).Pairwise
      (fun i j => decide (u.getD i 0 ≤ u.getD j 0) = true) :=
    List.sorted_mergeSort
      (by
        intro a b c hab hbc
        simp only [decide_eq_true_eq] at *
        exact le_trans hab hbc)
      (by
        intro a b
        simpa using le_total (u.getD a 0) (u.getD b 0))
      (List.range u.length)
  exact h.imp (by intro a b hab; simpa using hab)

/-- C5: the selection policy sorts the scored subpool ascending by
predicted score (`np.argsort`) and moves the top `ADDENDUM` indices — the
highest-scoring tail — from unlabeled to labeled.  Concretely, for the
scored subpool `[(5, 0.1), (7, 0.9), (9, 0.5)]`: `ADDENDUM = 1` selects
index `7` (max score) and `ADDENDUM = 2` selects `{7, 9}`; the concrete
`cycleStep` moves the selection out of the unlabeled list into the labeled
list. -/
theorem selection_policy_top_addendum :
    (∀ u : List ℚ, (argsort u).Pairwise (fun i j => u.getD i 0 ≤ u.getD j 0)) ∧
    selectTop [5, 7, 9] [1/10, 9/10, 5/10] 1 = [7] ∧
    selectTop [5, 7, 9] [1/10, 9/10, 5/10] 2 = [9, 7] ∧
    selectTop [5, 7, 9] [1/10, 9/10, 5/10] 2 ~ [7, 9] ∧
    cycleStep 3 1 ⟨[], [5, 7, 9]⟩ [5, 7, 9] [1/10, 9/10, 5/10] = .ok ⟨[7], [5, 9]⟩ := by
  have h2 : selectTop [5, 7, 9] [1/10, 9/10, 5/10] 2 = [9, 7] := by
    norm_num [selectTop, sortedSubset, pySliceNeg, argsort, List.mergeSort, List.range,
      List.range.loop, List.splitInTwo, List.splitAt, List.splitAt.go, List.merge]
  refine ⟨argsort_sorted, ?_, h2, ?_, ?_⟩
  · norm_num [selectTop, sortedSubset, pySliceNeg, argsort, List.mergeSort, List.range,
      List.range.loop, List.splitInTwo, List.splitAt, List.splitAt.go, List.merge]
  · rw [h2]
    decide
  · norm_num [cycleStep, Sampler, selectTop, sortedSubset, pySliceNeg, pyTakeNeg, argsort,
      List.mergeSort, List.range, List.range.loop, List.splitInTwo, List.splitAt,
      List.splitAt.go, List.merge]

/-- C6: for every batch whose size is odd, the ranking loss fails with the
configuration assertion (`assert len(input) % 2 == 0`, the
`ConfigurationError` of the specification's taxonomy) — the failure is the
first statement of `LossPredLoss`, raised whatever the targets, margin and
reduction are, before any loss value is computed. -/
theorem odd_batch_fails_assertion
    (input target : List ℚ) (margin : ℚ) (reduction : String)
    (hodd : input.length % 2 = 1) :
    LossPredLoss input target margin reduction = .error .assertionError := by
  rw [LossPredLoss, if_pos (by omega)]

/-- C6 witness: a batch of size 5. -/
theorem odd_batch_fails_assertion_witness :
    ([3, 1, 5, 2, 7] : List ℚ).length % 2 = 1 ∧
    LossPredLoss [3, 1, 5, 2, 7] [1, 1, 1, 1, 1] 1 "mean" = .error .assertionError :=
  ⟨by decide, odd_batch_fails_assertion [3, 1, 5, 2, 7] [1, 1, 1, 1, 1] 1 "mean" (by decide)⟩

/-- C10: for every even-length input and every reduction other than
`'mean'` and `'none'`, `LossPredLoss` does not fail with
`NotImplementedError` (the source constructs the exception but never
raises it); it fails with an unbound-local error instead, because
`return loss` reads a variable no branch assigned. -/
theorem unknown_reduction_unbound_local
    (input target : List ℚ) (margin : ℚ) (reduction : String)
    (heven : input.length % 2 = 0)
    (hmean : reduction ≠ "mean") (hnone : reduction ≠ "none") :
    LossPredLoss input target margin reduction = .error .unboundLocalError ∧
    LossPredLoss input target margin reduction ≠ .error .notImplementedError := by
  have h : LossPredLoss input target margin reduction = .error .unboundLocalError := by
    rw [LossPredLoss, if_neg (by omega)]
    simp only [if_neg hmean, if_neg hnone]
  rw [h]
  exact ⟨rfl, by simp⟩

/-- C10 witness: the unrecognized reduction `'sum'` on a batch of size 2. -/
theorem unknown_reduction_unbound_local_witness :
    ([1, 2] : List ℚ).length % 2 = 0 ∧ ("sum" : String) ≠ "mean" ∧ ("sum" : String) ≠ "none" ∧
    LossPredLoss [1, 2] [1, 2] 1 "sum" = .error .unboundLocalError ∧
    LossPredLoss [1, 2] [1, 2] 1 "sum" ≠ .error .notImplementedError :=
  ⟨by decide, by decide, by decide,
    unknown_reduction_unbound_local [1, 2] [1, 2] 1 "sum" (by decide) (by decide) (by decide)⟩

/-- C7: whenever the unlabeled set is smaller than the configured subpool
size at scoring time, the sampler fails with the pool-exhaustion error and
the cycle loop of the trial stops there: the remaining cycles never run
and the error propagates out of the loop (there is no handler around the
`Sampler(…)` call), rather than silently sampling an undersized pool. -/
theorem pool_exhaustion_stops_cycle_loop
    (SUBSET ADDENDUM c : Nat) (s : ALState)
    (shuffles : Nat → List Nat → List Nat) (uncs : Nat → List ℚ)
    (hlen : (shuffles 0 s.unlabeled).length < SUBSET) :
    Sampler (shuffles 0 s.unlabeled) SUBSET = .error .poolExhaustedError ∧
    runCycles SUBSET ADDENDUM shuffles uncs (c + 1) s = .error .poolExhaustedError := by
  have hs : Sampler (shuffles 0 s.unlabeled) SUBSET = .error .poolExhaustedError := by
    rw [Sampler, if_pos hlen]
  refine ⟨hs, ?_⟩
  rw [runCycles, cycleStep, hs]

/-- C7 witness: the specification's example `SubsetSize = 100` with
`|UnlabeledSet| = 50`. -/
theorem pool_exhaustion_stops_cycle_loop_witness :
    (List.range 50).length < 100 ∧
    Sampler (List.range 50) 100 = .error .poolExhaustedError ∧
    runCycles 100 1 (fun _ l => l) (fun _ => []) 1 ⟨[], List.range 50⟩
      = .error .poolExhaustedError := by
  have h := pool_exhaustion_stops_cycle_loop 100 1 0 ⟨[], List.range 50⟩
    (fun _ l => l) (fun _ => []) (by simp)
  exact ⟨by simp, h.1, h.2⟩

/-- C8 counterexample: a failure of the plotting sink is NOT caught — the
`vis.line(…)` call has no surrounding `try`, so the sink's error
propagates out of the emission (and hence out of the training loop).  The
guarded variant `train_epoch_emitSpec`, which is what the claim describes,
returns success on the same input. -/
theorem sink_failure_propagates_counterexample :
    train_epoch_emit 10 true true (.ok 0) (.ok 0) 0 0
        (fun _ _ => .error .observabilitySinkError)
      = .error .observabilitySinkError ∧
    train_epoch_emitSpec 10 true true (.ok 0) (.ok 0) 0 0
        (fun _ _ => .error .observabilitySinkError)
      = .ok () ∧
    train_epoch_emit 10 true true (.ok 0) (.ok 0) 0 0
        (fun _ _ => .error .observabilitySinkError)
      ≠ train_epoch_emitSpec 10 true true (.ok 0) (.ok 0) 0 0
          (fun _ _ => .error .observabilitySinkError) := by
  refine ⟨rfl, rfl, ?_⟩
  simp [train_epoch_emit, train_epoch_emitSpec]

/-- C8 amended: in the per-iteration emission, the failures that are
caught and ignored are those of the two `.item()` loss-component
conversions (each wrapped in `try … except: pass`); a failure raised by
the plotting-sink call itself is not caught and propagates out of the
emission, aborting training. -/
theorem sink_item_caught_sink_call_propagates
    (iters : Nat) (visPresent plotPresent : Bool) (mItem tItem : Except Unit ℚ)
    (mVal tVal : ℚ) (sinkLine : ℚ → ℚ → Except SinkError Unit) :
    ((∀ m t, sinkLine m t = .ok ()) →
      train_epoch_emit iters visPresent plotPresent mItem tItem mVal tVal sinkLine
        = .ok ()) ∧
    (∀ e : SinkError, (∀ m t, sinkLine m t = .error e) →
      iters % 10 = 0 → visPresent = true → plotPresent = true →
      train_epoch_emit iters visPresent plotPresent mItem tItem mVal tVal sinkLine
        = .error e) := by
  constructor
  · intro hok
    rw [train_epoch_emit.eq_def]
    by_cases hc : iters % 10 = 0 ∧ visPresent = true ∧ plotPresent = true
    · rw [if_pos hc]
      exact hok _ _
    · rw [if_neg hc]
  · intro e herr h10 hv hp
    rw [train_epoch_emit.eq_def, if_pos ⟨h10, hv, hp⟩]
    exact herr _ _

/-- C8 amended witness: failing `.item()` conversions never abort the
emission when the sink succeeds; a failing sink call propagates. -/
theorem sink_item_caught_sink_call_propagates_witness :
    train_epoch_emit 10 true true (.error ()) (.error ()) 3 4 (fun _ _ => .ok ())
      = .ok () ∧
    train_epoch_emit 20 true true (.ok 1) (.ok 2) 0 0
        (fun _ _ => .error .observabilitySinkError)
      = .error .observabilitySinkError :=
  ⟨(sink_item_caught_sink_call_propagates 10 true true (.error ()) (.error ()) 3 4
      (fun _ _ => .ok ())).1 (fun _ _ => rfl),
   (sink_item_caught_sink_call_propagates 20 true true (.ok 1) (.ok 2) 0 0
      (fun _ _ => .error .observabilitySinkError)).2 .observabilitySinkError
      (fun _ _ => rfl) rfl rfl rfl⟩

/-- C9 counterexample: in mid-pick mode the acquisition update is NOT
applied before the second training phase.  On a concrete cycle
(`labeled = [0]`, `unlabeled = [1, 2]`, `SUBSET = 2`, `ADDENDUM = 1`,
milestone 60, `EPOCH = 120`) both phases — `[0, 60)` and `[60, 120)` —
train on the pre-acquisition labeled set `[0]`, while the
labeled/unlabeled update from the mid-cycle scoring (new labeled set
`[0, 2]`) is applied only afterwards; had the update preceded the second
phase, that phase would have trained on `[0, 2]` (`≠ [0]`). -/
theorem midpick_update_after_second_phase_counterexample :
    runCycleMidPick 2 1 60 120 ⟨[0], [1, 2]⟩ [1, 2] [0, 1]
      = .ok ([(0, 60, [0]), (60, 120, [0])], ⟨[0, 2], [1]⟩) ∧
    ([0] : List Nat) ≠ [0, 2] := by
  refine ⟨?_, by simp⟩
  norm_num [runCycleMidPick, cycleStep, Sampler, selectTop, sortedSubset, pySliceNeg,
    pyTakeNeg, argsort, List.mergeSort, List.range, List.range.loop, List.splitInTwo,
    List.splitAt, List.splitAt.go, List.merge]

/-- C9 amended: in mid-pick mode each cycle trains epochs `[0, milestone)`,
then samples and scores the subpool, then trains `[milestone, EPOCH)` still
on the pre-acquisition labeled set; the acquired indices are moved from
unlabeled to labeled only after the second training phase, by the shared
acquisition update (`cycleStep`). -/
theorem midpick_phases_precede_update
    (SUBSET ADDENDUM milestone0 EPOCH : Nat) (s s' : ALState)
    (shuffled : List Nat) (u : List ℚ)
    (h : cycleStep SUBSET ADDENDUM s shuffled u = .ok s') :
    runCycleMidPick SUBSET ADDENDUM milestone0 EPOCH s shuffled u
      = .ok ([(0, milestone0, s.labeled), (milestone0, EPOCH, s.labeled)], s') ∧
    s'.labeled = s.labeled ++ selectTop (shuffled.take SUBSET) u ADDENDUM := by
  refine ⟨by rw [runCycleMidPick, h], ?_⟩
  obtain ⟨-, rfl⟩ := cycleStep_ok SUBSET ADDENDUM s s' shuffled u h
  rfl

/-- C9 amended witness: the concrete cycle of the counterexample. -/
theorem midpick_phases_precede_update_witness :
    runCycleMidPick 2 1 60 120 ⟨[0], [1, 2]⟩ [1, 2] [0, 1]
      = .ok ([(0, 60, [0]), (60, 120, [0])], ⟨[0, 2], [1]⟩) ∧
    ([0, 2] : List Nat) = [0] ++ selectTop ([1, 2].take 2) [0, 1] 1 := by
  have h : cycleStep 2 1 ⟨[0], [1, 2]⟩ [1, 2] [0, 1] = .ok ⟨[0, 2], [1]⟩ := by
    norm_num [cycleStep, Sampler, selectTop, sortedSubset, pySliceNeg, pyTakeNeg, argsort,
      List.mergeSort, List.range, List.range.loop, List.splitInTwo, List.splitAt,
      List.splitAt.go, List.merge]
  exact midpick_phases_precede_update 2 1 60 120 ⟨[0], [1, 2]⟩ ⟨[0, 2], [1]⟩ [1, 2] [0, 1] h

end DebugMain
